import Mathlib

/-!
Verification of the payroll calculation core of `src/main.py`
(class `PayrollSystem`, in particular `calculate_salary`).

The embedding mirrors the Python source:
* employee and attendance dictionaries become structures; keys that the
  source reads with `.get(key, default)` (or that the source elsewhere
  treats as optional) become `Option` fields, keys read with a direct
  subscript `d[key]` become plain fields;
* Python numbers (ints and floats used for money and hours) become `ℚ`,
  keeping arithmetic exact;
* `f"{year}-{month:02d}"` becomes `periodStr`, modelling Python integer
  formatting literally (`str(year)`, and `%02d` for the month);
* the `None` return and the possible `KeyError` of `calculate_salary`
  become a three-way outcome type `CalcOutcome`.
-/

/-- One employee dictionary, as built by the application
(`src/main.py` lines 298-312) and read by `calculate_salary`.
`overtime_applicable` is read with `employee.get("overtime_applicable", False)`
and `overtime_rate` is an optional key of the data model, so both are
`Option` fields; `basic_salary` and `employee_id` are read with a direct
subscript and are plain fields.  Fields never read by the calculation core
(name, phone, bank details, ...) are kept as opaque strings. -/
structure Employee where
  employee_id : String
  name : String
  phone : String
  department : String
  position : String
  basic_salary : ℚ
  overtime_applicable : Option Bool
  overtime_rate : Option ℚ
  bank_account_number : String
  ifsc_code : String
  branch_name : String
  joining_date : String
  status : String
deriving Repr, DecidableEq

/-- One attendance dictionary, as built by the application
(`src/main.py` lines 506-513).  `overtime_hours` is read with
`record.get("overtime_hours", 0)`, hence an `Option` field;
`employee_id` and `date` are read with direct subscripts. -/
structure AttendanceRecord where
  employee_id : String
  date : String
  check_in : String
  overtime_hours : Option ℚ
  notes : String
  recorded_at : String
deriving Repr, DecidableEq

/-- The in-memory state of `PayrollSystem`: the two loaded collections
`self.employees_data["employees"]` and
`self.attendance_data["attendance_records"]`. -/
structure PayrollSystem where
  employees : List Employee
  attendance_records : List AttendanceRecord
deriving Repr, DecidableEq

/-- The salary dictionary returned by `calculate_salary`
(`src/main.py` lines 132-142). -/
structure SalaryResult where
  employee : Employee
  working_days : Nat
  total_overtime_hours : ℚ
  basic_salary : ℚ
  overtime_pay : ℚ
  gross_salary : ℚ
  net_salary : ℚ
  month : Int
  year : Int
deriving Repr, DecidableEq

/-- Outcome of `calculate_salary`: the Python method returns `None` when the
employee is not found, raises `KeyError` on a missing mandatory key (the
only one reachable in its body is `employee["overtime_rate"]` on line 124),
and otherwise returns the salary dictionary. -/
inductive CalcOutcome where
  | notFound : CalcOutcome
  | keyError : String → CalcOutcome
  | ok : SalaryResult → CalcOutcome
deriving Repr, DecidableEq

/-- Python `s.startswith(p)` at the level of character lists: `p` is a
literal prefix of `s`. -/
def listStartsWith : List Char → List Char → Bool
  | _, [] => true
  | [], _ :: _ => false
  | c :: cs, d :: ds => c == d && listStartsWith cs ds

/-- Python `s.startswith(p)` on strings. -/
def strStartsWith (s p : String) : Bool := listStartsWith s.data p.data

/-- Python `str(n)` for a natural number (decimal, no padding). -/
def natStr (n : Nat) : String := Nat.repr n

/-- Python `str(i)` for an integer: a minus sign followed by the decimal
digits when negative. -/
def intStr (i : Int) : String :=
  if i < 0 then "-" ++ natStr i.natAbs else natStr i.natAbs

/-- Left-pad a string with `'0'` up to width `w` (no-op when already at
least that long). -/
def padZeros (w : Nat) (s : String) : String :=
  String.mk (List.replicate (w - s.length) '0') ++ s

/-- Python `f"{i:02d}"`: the decimal form of `i` zero-padded to a minimum
total width of 2, the sign counting toward the width. -/
def pyFormat02d (i : Int) : String :=
  if i < 0 then "-" ++ padZeros 1 (natStr i.natAbs)
  else padZeros 2 (natStr i.natAbs)

/-- The textual period key `f"{year}-{month:02d}"` used by the attendance
filter on line 108 of `src/main.py`. -/
def periodStr (year month : Int) : String :=
  intStr year ++ "-" ++ pyFormat02d month

/-- The period key as the spec's words describe it: a zero-padded
"YYYY-MM" string, i.e. the year itself zero-padded to four digits and the
month to two.  Kept distinct from `periodStr` (the source's formatting) so
the two can be compared. -/
def specPeriodStr (year month : Int) : String :=
  (if year < 0 then "-" ++ padZeros 3 (natStr year.natAbs)
   else padZeros 4 (natStr year.natAbs)) ++ "-" ++ pyFormat02d month

/-- `PayrollSystem.get_employee` (`src/main.py` lines 86-91): first
employee whose `employee_id` equals the argument, else `None`. -/
def get_employee (sys : PayrollSystem) (employee_id : String) : Option Employee :=
  sys.employees.find? (fun emp => emp.employee_id == employee_id)

/-- The list comprehension of `src/main.py` lines 105-109: attendance
records whose `employee_id` matches and whose `date` starts with the
textual period key. -/
def monthly_records (sys : PayrollSystem) (employee_id : String)
    (month year : Int) : List AttendanceRecord :=
  sys.attendance_records.filter
    (fun record => record.employee_id == employee_id &&
      strStartsWith record.date (periodStr year month))

/-- `PayrollSystem.calculate_salary` (`src/main.py` lines 98-142),
translated line by line.  `employee.get("overtime_applicable", False)`
is `Option.getD false`; `record.get("overtime_hours", 0)` is
`Option.getD 0`; the direct subscript `employee["overtime_rate"]` raises
`KeyError` when the key is absent. -/
def calculate_salary (sys : PayrollSystem) (employee_id : String)
    (month year : Int) : CalcOutcome :=
  match get_employee sys employee_id with
  | none => CalcOutcome.notFound
  | some employee =>
    let records := monthly_records sys employee_id month year
    let working_days := records.length
    let daily_rate := employee.basic_salary / 30
    let basic_salary := daily_rate * (working_days : ℚ)
    if employee.overtime_applicable.getD false then
      let total_overtime_hours :=
        (records.map (fun record => record.overtime_hours.getD 0)).sum
      match employee.overtime_rate with
      | none => CalcOutcome.keyError "overtime_rate"
      | some rate =>
        let overtime_pay := total_overtime_hours * rate
        CalcOutcome.ok
          { employee := employee
            working_days := working_days
            total_overtime_hours := total_overtime_hours
            basic_salary := basic_salary
            overtime_pay := overtime_pay
            gross_salary := basic_salary + overtime_pay
            net_salary := basic_salary + overtime_pay
            month := month
            year := year }
    else
      CalcOutcome.ok
        { employee := employee
          working_days := working_days
          total_overtime_hours := 0
          basic_salary := basic_salary
          overtime_pay := 0
          gross_salary := basic_salary + 0
          net_salary := basic_salary + 0
          month := month
          year := year }

/-- State-passing rendering of the same method: the state (the two loaded
collections held by `self`) is threaded through the call.  The body of
`calculate_salary` contains only reads of `self.employees_data` and
`self.attendance_data` and no assignment, so every branch returns the
threaded state together with the outcome. -/
def calculate_salary_st (sys : PayrollSystem) (employee_id : String)
    (month year : Int) : PayrollSystem × CalcOutcome :=
  match get_employee sys employee_id with
  | none => (sys, CalcOutcome.notFound)
  | some employee =>
    let records := monthly_records sys employee_id month year
    let working_days := records.length
    let daily_rate := employee.basic_salary / 30
    let basic_salary := daily_rate * (working_days : ℚ)
    if employee.overtime_applicable.getD false then
      let total_overtime_hours :=
        (records.map (fun record => record.overtime_hours.getD 0)).sum
      match employee.overtime_rate with
      | none => (sys, CalcOutcome.keyError "overtime_rate")
      | some rate =>
        let overtime_pay := total_overtime_hours * rate
        (sys, CalcOutcome.ok
          { employee := employee
            working_days := working_days
            total_overtime_hours := total_overtime_hours
            basic_salary := basic_salary
            overtime_pay := overtime_pay
            gross_salary := basic_salary + overtime_pay
            net_salary := basic_salary + overtime_pay
            month := month
            year := year })
    else
      (sys, CalcOutcome.ok
        { employee := employee
          working_days := working_days
          total_overtime_hours := 0
          basic_salary := basic_salary
          overtime_pay := 0
          gross_salary := basic_salary + 0
          net_salary := basic_salary + 0
          month := month
          year := year })

/-- The salary dictionary produced by the `overtime_applicable`-false
branch of `calculate_salary`, written out with its fields as the source
computes them. -/
def mkNoOtResult (sys : PayrollSystem) (employee_id : String)
    (month year : Int) (e : Employee) : SalaryResult :=
  { employee := e
    working_days := (monthly_records sys employee_id month year).length
    total_overtime_hours := 0
    basic_salary := e.basic_salary / 30 *
      ((monthly_records sys employee_id month year).length : ℚ)
    overtime_pay := 0
    gross_salary := e.basic_salary / 30 *
      ((monthly_records sys employee_id month year).length : ℚ) + 0
    net_salary := e.basic_salary / 30 *
      ((monthly_records sys employee_id month year).length : ℚ) + 0
    month := month
    year := year }

/-- The salary dictionary produced by the `overtime_applicable`-true
branch of `calculate_salary` when `overtime_rate` is present. -/
def mkOtResult (sys : PayrollSystem) (employee_id : String)
    (month year : Int) (e : Employee) (rate : ℚ) : SalaryResult :=
  { employee := e
    working_days := (monthly_records sys employee_id month year).length
    total_overtime_hours := ((monthly_records sys employee_id month year).map
      (fun record => record.overtime_hours.getD 0)).sum
    basic_salary := e.basic_salary / 30 *
      ((monthly_records sys employee_id month year).length : ℚ)
    overtime_pay := ((monthly_records sys employee_id month year).map
      (fun record => record.overtime_hours.getD 0)).sum * rate
    gross_salary := e.basic_salary / 30 *
      ((monthly_records sys employee_id month year).length : ℚ) +
      ((monthly_records sys employee_id month year).map
        (fun record => record.overtime_hours.getD 0)).sum * rate
    net_salary := e.basic_salary / 30 *
      ((monthly_records sys employee_id month year).length : ℚ) +
      ((monthly_records sys employee_id month year).map
        (fun record => record.overtime_hours.getD 0)).sum * rate
    month := month
    year := year }

/-! Concrete fixtures used by witnesses and counterexamples.  Employees are
shaped exactly like the dictionaries the application writes
(`src/main.py` lines 298-312), attendance records like lines 506-513. -/

def sampleEmp (eid : String) (salary : ℚ) (ot : Option Bool)
    (rate : Option ℚ) : Employee :=
  { employee_id := eid
    name := "Asha"
    phone := "5550100"
    department := "Construction"
    position := "Mason"
    basic_salary := salary
    overtime_applicable := ot
    overtime_rate := rate
    bank_account_number := "000111"
    ifsc_code := "IFSC0001"
    branch_name := "Main"
    joining_date := "2020-01-01"
    status := "active" }

def sampleRec (eid date : String) (hours : Option ℚ) : AttendanceRecord :=
  { employee_id := eid
    date := date
    check_in := "09:00:00"
    overtime_hours := hours
    notes := ""
    recorded_at := "2024-03-31 18:00:00" }

def c1emp : Employee := sampleEmp "E1" 30000 (some false) (some 0)

def c1rec : AttendanceRecord := sampleRec "E1" "0050-03-15" (some 0)

def c1sys : PayrollSystem := { employees := [c1emp], attendance_records := [c1rec] }

def c2emp : Employee := sampleEmp "E1" 30000 (some false) (some 0)

def c2sys : PayrollSystem :=
  { employees := [c2emp]
    attendance_records :=
      [sampleRec "E1" "2024-03-10" (some 0), sampleRec "E1" "2024-03-10" (some 0)] }

def c3emp : Employee := sampleEmp "E1" 30000 (some false) (some 0)

def c3sys : PayrollSystem :=
  { employees := [c3emp]
    attendance_records := List.replicate 31 (sampleRec "E1" "2024-03-10" (some 0)) }

def c4emp : Employee := sampleEmp "E4" 30000 (some false) (some 0)

def c4rec : AttendanceRecord := sampleRec "E4" "2024-03-12" (some 5)

def c4sys : PayrollSystem := { employees := [c4emp], attendance_records := [c4rec] }

def c5emp : Employee := sampleEmp "E5" 30000 (some true) (some 100)

def c5sys : PayrollSystem :=
  { employees := [c5emp]
    attendance_records :=
      [sampleRec "E5" "2024-03-12" (some 8), sampleRec "E5" "2024-03-13" none] }

def c6emp : Employee := sampleEmp "E6" 24000 (some false) (some 0)

def c6sys : PayrollSystem :=
  { employees := [c6emp], attendance_records := [sampleRec "E6" "2024-03-05" (some 0)] }

def c7emp : Employee := sampleEmp "E1" 30000 (some false) (some 0)

def c7sys : PayrollSystem := { employees := [c7emp], attendance_records := [] }

def c8emp : Employee := sampleEmp "E8" 30000 (some true) none

def c8sys : PayrollSystem :=
  { employees := [c8emp], attendance_records := [sampleRec "E8" "2024-03-12" (some 2)] }

def c8aemp : Employee := sampleEmp "E8" 30000 none none

def c8asys : PayrollSystem :=
  { employees := [c8aemp], attendance_records := [sampleRec "E8" "2024-03-12" none] }

def c10emp : Employee := sampleEmp "E9" 30000 (some true) none

def c10sys : PayrollSystem :=
  { employees := [c10emp], attendance_records := [sampleRec "E9" "2024-03-12" (some 1)] }

def c10aemp : Employee := sampleEmp "E1" 30000 (some true) (some 100)

def c10asys : PayrollSystem :=
  { employees := [c10aemp], attendance_records := [sampleRec "E1" "2024-03-10" (some 1)] }

theorem calc_no_ot (sys : PayrollSystem) (employee_id : String)
    (month year : Int) (e : Employee)
    (h1 : get_employee sys employee_id = some e)
    (h2 : e.overtime_applicable.getD false = false) :
    calculate_salary sys employee_id month year =
      CalcOutcome.ok (mkNoOtResult sys employee_id month year e) := by
  unfold calculate_salary
  rw [h1]
  simp only [h2, Bool.false_eq_true, if_false]
  rfl

theorem calc_ot (sys : PayrollSystem) (employee_id : String)
    (month year : Int) (e : Employee) (rate : ℚ)
    (h1 : get_employee sys employee_id = some e)
    (h2 : e.overtime_applicable.getD false = true)
    (h3 : e.overtime_rate = some rate) :
    calculate_salary sys employee_id month year =
      CalcOutcome.ok (mkOtResult sys employee_id month year e rate) := by
  unfold calculate_salary
  rw [h1]
  simp only [h2, if_true]
  rw [h3]
  rfl

theorem calc_missing_rate (sys : PayrollSystem) (employee_id : String)
    (month year : Int) (e : Employee)
    (h1 : get_employee sys employee_id = some e)
    (h2 : e.overtime_applicable.getD false = true)
    (h3 : e.overtime_rate = none) :
    calculate_salary sys employee_id month year =
      CalcOutcome.keyError "overtime_rate" := by
  unfold calculate_salary
  rw [h1]
  simp only [h2, if_true]
  rw [h3]

/-- Every outcome of `calculate_salary` is one of the three shapes above
or `notFound`. -/
theorem calc_cases (sys : PayrollSystem) (employee_id : String)
    (month year : Int) :
    (get_employee sys employee_id = none ∧
      calculate_salary sys employee_id month year = CalcOutcome.notFound) ∨
    (∃ e, get_employee sys employee_id = some e ∧
      ((e.overtime_applicable.getD false = false ∧
        calculate_salary sys employee_id month year =
          CalcOutcome.ok (mkNoOtResult sys employee_id month year e)) ∨
       (e.overtime_applicable.getD false = true ∧ ∃ rate,
        e.overtime_rate = some rate ∧
        calculate_salary sys employee_id month year =
          CalcOutcome.ok (mkOtResult sys employee_id month year e rate)) ∨
       (e.overtime_applicable.getD false = true ∧ e.overtime_rate = none ∧
        calculate_salary sys employee_id month year =
          CalcOutcome.keyError "overtime_rate"))) := by
  cases h1 : get_employee sys employee_id with
  | none =>
    left
    refine ⟨rfl, ?_⟩
    unfold calculate_salary
    rw [h1]
  | some e =>
    right
    refine ⟨e, rfl, ?_⟩
    cases h2 : e.overtime_applicable.getD false with
    | false => exact Or.inl ⟨rfl, calc_no_ot sys employee_id month year e h1 h2⟩
    | true =>
      cases h3 : e.overtime_rate with
      | none =>
        exact Or.inr (Or.inr ⟨rfl, rfl,
          calc_missing_rate sys employee_id month year e h1 h2 h3⟩)
      | some rate =>
        exact Or.inr (Or.inl ⟨rfl, rate, rfl,
          calc_ot sys employee_id month year e rate h1 h2 h3⟩)

theorem calculate_salary_st_eq (sys : PayrollSystem) (employee_id : String)
    (month year : Int) :
    calculate_salary_st sys employee_id month year =
      (sys, calculate_salary sys employee_id month year) := by
  unfold calculate_salary_st calculate_salary
  split <;> (try split) <;> (try split) <;> rfl

/-- C1 counterexample: for the period (year 50, month 3) the record dated
"0050-03-15" carries the zero-padded "YYYY-MM" prefix "0050-03" that the
claim describes, and its employee_id matches, yet the filter of
`calculate_salary` selects nothing: the source formats the year without
padding, so its prefix is the 5-character "50-03". -/
theorem c1_counterexample :
    strStartsWith c1rec.date (specPeriodStr 50 3) = true ∧
    c1rec.employee_id = "E1" ∧
    c1rec ∈ c1sys.attendance_records ∧
    monthly_records c1sys "E1" 3 50 = [] ∧
    periodStr 50 3 ≠ specPeriodStr 50 3 ∧
    (periodStr 50 3).length ≠ 7 :=
  ⟨by decide, by decide, by decide, by decide, by decide, by decide⟩

/-- C1 (amended): a record of the ledger is selected by the period filter
of `calculate_salary` exactly when its employee_id equals the given one
and its date string literally begins with `str(year) ++ "-" ++ month
zero-padded to two digits`; the year itself is rendered verbatim, without
zero-padding, so the prefix is 7 characters only when the year has four
digits.  Non-matching dates, including malformed ones, are silently
excluded. -/
theorem c1_period_filter (sys : PayrollSystem) (employee_id : String)
    (month year : Int) (record : AttendanceRecord) :
    record ∈ monthly_records sys employee_id month year ↔
      record ∈ sys.attendance_records ∧ record.employee_id = employee_id ∧
        strStartsWith record.date (intStr year ++ "-" ++ pyFormat02d month) = true := by
  simp [monthly_records, List.mem_filter, Bool.and_eq_true, beq_iff_eq, periodStr,
    and_assoc]

/-- C2: every successful call returns `working_days` equal to the number
of records selected by the period filter, duplicates included (the count
is the plain length of the filtered list, with no deduplication). -/
theorem c2_working_days (sys : PayrollSystem) (employee_id : String)
    (month year : Int) (r : SalaryResult)
    (h : calculate_salary sys employee_id month year = CalcOutcome.ok r) :
    r.working_days = (monthly_records sys employee_id month year).length := by
  rcases calc_cases sys employee_id month year with ⟨_, hn⟩ | ⟨e, _, hc⟩
  · rw [h] at hn; cases hn
  · rcases hc with ⟨_, hok⟩ | ⟨_, rate, _, hok⟩ | ⟨_, _, hk⟩
    · rw [hok] at h; cases h; rfl
    · rw [hok] at h; cases h; rfl
    · rw [hk] at h; cases h

/-- C2 witness: two records on the same date "2024-03-10" for one
employee both count, so `working_days = 2`. -/
theorem c2_witness :
    calculate_salary c2sys "E1" 3 2024 =
      CalcOutcome.ok (mkNoOtResult c2sys "E1" 3 2024 c2emp) ∧
    (mkNoOtResult c2sys "E1" 3 2024 c2emp).working_days = 2 := by
  have hok := calc_no_ot c2sys "E1" 3 2024 c2emp (by decide) (by decide)
  refine ⟨hok, ?_⟩
  rw [c2_working_days c2sys "E1" 3 2024 _ hok]
  decide

theorem basic_exceeds_of_many_days (b : ℚ) (n : ℕ) (hb : 0 < b)
    (hn : 30 < n) : b < b / 30 * (n : ℚ) := by
  have h30 : (30 : ℚ) < (n : ℚ) := by exact_mod_cast hn
  have hpos : 0 < b / 30 := by positivity
  calc b = b / 30 * 30 := by ring
    _ < b / 30 * (n : ℚ) := by exact (mul_lt_mul_left hpos).mpr h30

/-- C3: every successful call returns `basic_salary` equal to
`basic_salary / 30 × working_days` exactly, with the fixed divisor 30;
when the employee's nominal salary is positive and `working_days`
exceeds 30 the amount strictly exceeds the nominal monthly salary. -/
theorem c3_basic_salary (sys : PayrollSystem) (employee_id : String)
    (month year : Int) (r : SalaryResult)
    (h : calculate_salary sys employee_id month year = CalcOutcome.ok r) :
    r.basic_salary = r.employee.basic_salary / 30 * (r.working_days : ℚ) ∧
      (0 < r.employee.basic_salary → 30 < r.working_days →
        r.employee.basic_salary < r.basic_salary) := by
  rcases calc_cases sys employee_id month year with ⟨_, hn⟩ | ⟨e, _, hc⟩
  · rw [h] at hn; cases hn
  · rcases hc with ⟨_, hok⟩ | ⟨_, rate, _, hok⟩ | ⟨_, _, hk⟩
    · rw [hok] at h; cases h
      exact ⟨rfl, fun hb hn => basic_exceeds_of_many_days _ _ hb hn⟩
    · rw [hok] at h; cases h
      exact ⟨rfl, fun hb hn => basic_exceeds_of_many_days _ _ hb hn⟩
    · rw [hk] at h; cases h

set_option maxRecDepth 4000 in
/-- C3 witness: 31 records in the period give `working_days = 31` and a
basic-salary amount strictly above the nominal 30000. -/
theorem c3_witness :
    calculate_salary c3sys "E1" 3 2024 =
      CalcOutcome.ok (mkNoOtResult c3sys "E1" 3 2024 c3emp) ∧
    0 < c3emp.basic_salary ∧
    30 < (mkNoOtResult c3sys "E1" 3 2024 c3emp).working_days ∧
    (mkNoOtResult c3sys "E1" 3 2024 c3emp).basic_salary =
      c3emp.basic_salary / 30 *
        ((mkNoOtResult c3sys "E1" 3 2024 c3emp).working_days : ℚ) ∧
    c3emp.basic_salary < (mkNoOtResult c3sys "E1" 3 2024 c3emp).basic_salary := by
  have hok := calc_no_ot c3sys "E1" 3 2024 c3emp (by decide) (by decide)
  have h := c3_basic_salary c3sys "E1" 3 2024 _ hok
  exact ⟨hok, by decide, by decide, h.1, h.2 (by decide) (by decide)⟩

/-- C4: when the employee the id resolves to has `overtime_applicable`
false (after the `.get(..., False)` defaulting), the call succeeds with
`overtime_pay = 0` and `total_overtime_hours = 0`, whatever
`overtime_hours` values the ledger holds. -/
theorem c4_no_overtime (sys : PayrollSystem) (employee_id : String)
    (month year : Int) (e : Employee)
    (h1 : get_employee sys employee_id = some e)
    (h2 : e.overtime_applicable.getD false = false) :
    ∃ r, calculate_salary sys employee_id month year = CalcOutcome.ok r ∧
      r.overtime_pay = 0 ∧ r.total_overtime_hours = 0 :=
  ⟨mkNoOtResult sys employee_id month year e,
    calc_no_ot sys employee_id month year e h1 h2, rfl, rfl⟩

/-- C4 witness: an employee without overtime whose single period record
nevertheless carries `overtime_hours = 5` still gets zero overtime. -/
theorem c4_witness :
    get_employee c4sys "E4" = some c4emp ∧
    c4emp.overtime_applicable.getD false = false ∧
    c4rec.overtime_hours = some 5 ∧
    c4rec ∈ monthly_records c4sys "E4" 3 2024 ∧
    (∃ r, calculate_salary c4sys "E4" 3 2024 = CalcOutcome.ok r ∧
      r.overtime_pay = 0 ∧ r.total_overtime_hours = 0) :=
  ⟨by decide, by decide, by decide, by decide,
    c4_no_overtime c4sys "E4" 3 2024 c4emp (by decide) (by decide)⟩

/-- C5: when the employee has `overtime_applicable` true and a present
`overtime_rate`, the call succeeds with `total_overtime_hours` the sum of
the selected records' `overtime_hours` (0 for an absent value) and
`overtime_pay = total_overtime_hours × overtime_rate`. -/
theorem c5_overtime (sys : PayrollSystem) (employee_id : String)
    (month year : Int) (e : Employee) (rate : ℚ)
    (h1 : get_employee sys employee_id = some e)
    (h2 : e.overtime_applicable.getD false = true)
    (h3 : e.overtime_rate = some rate) :
    ∃ r, calculate_salary sys employee_id month year = CalcOutcome.ok r ∧
      r.total_overtime_hours = ((monthly_records sys employee_id month year).map
        (fun record => record.overtime_hours.getD 0)).sum ∧
      r.overtime_pay = r.total_overtime_hours * rate :=
  ⟨mkOtResult sys employee_id month year e rate,
    calc_ot sys employee_id month year e rate h1 h2 h3, rfl, rfl⟩

/-- C5 witness: rate 100, one record with 8 overtime hours and one with
the key absent. -/
theorem c5_witness :
    get_employee c5sys "E5" = some c5emp ∧
    c5emp.overtime_applicable.getD false = true ∧
    c5emp.overtime_rate = some 100 ∧
    (∃ r, calculate_salary c5sys "E5" 3 2024 = CalcOutcome.ok r ∧
      r.total_overtime_hours = ((monthly_records c5sys "E5" 3 2024).map
        (fun record => record.overtime_hours.getD 0)).sum ∧
      r.overtime_pay = r.total_overtime_hours * 100) :=
  ⟨by decide, by decide, by decide,
    c5_overtime c5sys "E5" 3 2024 c5emp 100 (by decide) (by decide) (by decide)⟩

/-- C6: every successful call returns `gross_salary = basic_salary +
overtime_pay` and `net_salary = gross_salary`, with no deduction of any
kind. -/
theorem c6_gross_net (sys : PayrollSystem) (employee_id : String)
    (month year : Int) (r : SalaryResult)
    (h : calculate_salary sys employee_id month year = CalcOutcome.ok r) :
    r.gross_salary = r.basic_salary + r.overtime_pay ∧
      r.net_salary = r.gross_salary := by
  rcases calc_cases sys employee_id month year with ⟨_, hn⟩ | ⟨e, _, hc⟩
  · rw [h] at hn; cases hn
  · rcases hc with ⟨_, hok⟩ | ⟨_, rate, _, hok⟩ | ⟨_, _, hk⟩
    · rw [hok] at h; cases h; exact ⟨rfl, rfl⟩
    · rw [hok] at h; cases h; exact ⟨rfl, rfl⟩
    · rw [hk] at h; cases h

/-- C6 witness at a concrete successful call. -/
theorem c6_witness :
    calculate_salary c6sys "E6" 3 2024 =
      CalcOutcome.ok (mkNoOtResult c6sys "E6" 3 2024 c6emp) ∧
    (mkNoOtResult c6sys "E6" 3 2024 c6emp).gross_salary =
      (mkNoOtResult c6sys "E6" 3 2024 c6emp).basic_salary +
        (mkNoOtResult c6sys "E6" 3 2024 c6emp).overtime_pay ∧
    (mkNoOtResult c6sys "E6" 3 2024 c6emp).net_salary =
      (mkNoOtResult c6sys "E6" 3 2024 c6emp).gross_salary := by
  have hok := calc_no_ot c6sys "E6" 3 2024 c6emp (by decide) (by decide)
  have h := c6_gross_net c6sys "E6" 3 2024 _ hok
  exact ⟨hok, h.1, h.2⟩

/-- C7: an employee_id matching no employee of the directory yields
`notFound` (and nothing else), and an employee_id some employee carries
never yields `notFound`. -/
theorem c7_not_found (sys : PayrollSystem) (employee_id : String)
    (month year : Int) :
    ((∀ e ∈ sys.employees, e.employee_id ≠ employee_id) →
      calculate_salary sys employee_id month year = CalcOutcome.notFound) ∧
    ((∃ e ∈ sys.employees, e.employee_id = employee_id) →
      calculate_salary sys employee_id month year ≠ CalcOutcome.notFound) := by
  constructor
  · intro h
    have hge : get_employee sys employee_id = none := by
      rw [get_employee, List.find?_eq_none]
      intro e he hbe
      exact h e he (by simpa using hbe)
    unfold calculate_salary
    rw [hge]
  · rintro ⟨e, he, heq⟩ hn
    rcases calc_cases sys employee_id month year with ⟨hge, _⟩ | ⟨e2, _, hc⟩
    · rw [get_employee, List.find?_eq_none] at hge
      exact hge e he (by simp [heq])
    · rcases hc with ⟨_, hok⟩ | ⟨_, rate, _, hok⟩ | ⟨_, _, hk⟩
      · rw [hok] at hn; cases hn
      · rw [hok] at hn; cases hn
      · rw [hk] at hn; cases hn

/-- C7 witness: "E0" is absent from the directory and yields `notFound`;
"E1" is present and does not. -/
theorem c7_witness :
    calculate_salary c7sys "E0" 3 2024 = CalcOutcome.notFound ∧
    calculate_salary c7sys "E1" 3 2024 ≠ CalcOutcome.notFound :=
  ⟨(c7_not_found c7sys "E0" 3 2024).1 (by decide),
    (c7_not_found c7sys "E1" 3 2024).2 ⟨c7emp, by decide, by decide⟩⟩

/-- C8 counterexample: an employee with `overtime_applicable` true and no
`overtime_rate` key makes `calculate_salary` fail with a `KeyError` on
the direct subscript `employee["overtime_rate"]` (line 124), instead of
defaulting the missing rate to 0 and returning a SalaryResult. -/
theorem c8_counterexample :
    c8emp.overtime_rate = none ∧
    c8emp.overtime_applicable = some true ∧
    get_employee c8sys "E8" = some c8emp ∧
    calculate_salary c8sys "E8" 3 2024 = CalcOutcome.keyError "overtime_rate" :=
  ⟨rfl, rfl, by decide,
    calc_missing_rate c8sys "E8" 3 2024 c8emp (by decide) rfl rfl⟩

/-- C8 (amended): a missing `overtime_hours` in a record always defaults
to 0, and a missing `overtime_rate` causes no failure as long as the
employee's `overtime_applicable` (defaulted to false when absent) is
false; but when `overtime_applicable` is true, a missing `overtime_rate`
makes the call fail with a `KeyError` rather than defaulting to 0. -/
theorem c8_missing_fields (sys : PayrollSystem) (employee_id : String)
    (month year : Int) (e : Employee)
    (h1 : get_employee sys employee_id = some e)
    (h3 : e.overtime_rate = none) :
    (e.overtime_applicable.getD false = false →
      ∃ r, calculate_salary sys employee_id month year = CalcOutcome.ok r) ∧
    (e.overtime_applicable.getD false = true →
      calculate_salary sys employee_id month year =
        CalcOutcome.keyError "overtime_rate") :=
  ⟨fun h2 => ⟨mkNoOtResult sys employee_id month year e,
      calc_no_ot sys employee_id month year e h1 h2⟩,
    fun h2 => calc_missing_rate sys employee_id month year e h1 h2 h3⟩

/-- C8 witness: an employee dictionary carrying neither
`overtime_applicable` nor `overtime_rate` still gets a SalaryResult. -/
theorem c8_witness :
    get_employee c8asys "E8" = some c8aemp ∧
    c8aemp.overtime_rate = none ∧
    c8aemp.overtime_applicable.getD false = false ∧
    (∃ r, calculate_salary c8asys "E8" 3 2024 = CalcOutcome.ok r) :=
  ⟨by decide, rfl, rfl,
    (c8_missing_fields c8asys "E8" 3 2024 c8aemp (by decide) rfl).1 rfl⟩

/-- C9: the state-passing rendering of `calculate_salary` returns the two
collections unchanged, for found and not-found ids alike: the operation
is a pure read of the employee directory and the attendance ledger. -/
theorem c9_no_side_effects (sys : PayrollSystem) (employee_id : String)
    (month year : Int) :
    (calculate_salary_st sys employee_id month year).1.employees =
      sys.employees ∧
    (calculate_salary_st sys employee_id month year).1.attendance_records =
      sys.attendance_records ∧
    (calculate_salary_st sys employee_id month year).2 =
      calculate_salary sys employee_id month year := by
  rw [calculate_salary_st_eq]
  exact ⟨rfl, rfl, rfl⟩

/-- C10 counterexample: month 13 is outside 1-12 and "E9" is present in
the directory, yet the call does not return a SalaryResult: the employee
has `overtime_applicable` true with no `overtime_rate`, so the call fails
with a `KeyError` exactly as it would for an in-range month. -/
theorem c10_counterexample :
    (12 : Int) < 13 ∧
    get_employee c10sys "E9" = some c10emp ∧
    calculate_salary c10sys "E9" 13 2024 = CalcOutcome.keyError "overtime_rate" :=
  ⟨by decide, by decide,
    calc_missing_rate c10sys "E9" 13 2024 c10emp (by decide) rfl rfl⟩

/-- C10 (amended): for a month outside 1-12 and an employee present in the
directory whose overtime data is well-formed (an `overtime_rate` is
present whenever `overtime_applicable` is true, as for every employee the
application itself creates), `calculate_salary` performs no month-range
check: the month is formatted with `%02d` verbatim into the textual
prefix and a SalaryResult is returned, its `working_days` counting the
records whose date starts with that prefix. -/
theorem c10_no_month_validation (sys : PayrollSystem) (employee_id : String)
    (month year : Int) (e : Employee)
    (_hm : month < 1 ∨ 12 < month)
    (h1 : get_employee sys employee_id = some e)
    (hw : e.overtime_applicable.getD false = true →
      ∃ rate, e.overtime_rate = some rate) :
    ∃ r, calculate_salary sys employee_id month year = CalcOutcome.ok r ∧
      r.working_days = (monthly_records sys employee_id month year).length := by
  cases h2 : e.overtime_applicable.getD false with
  | false =>
    exact ⟨mkNoOtResult sys employee_id month year e,
      calc_no_ot sys employee_id month year e h1 h2, rfl⟩
  | true =>
    obtain ⟨rate, h3⟩ := hw h2
    exact ⟨mkOtResult sys employee_id month year e rate,
      calc_ot sys employee_id month year e rate h1 h2 h3, rfl⟩

/-- C10 witness: month 13 with a present, well-formed employee yields a
SalaryResult whose `working_days` is 0 (no date starts with "2024-13"). -/
theorem c10_witness :
    ((13 : Int) < 1 ∨ 12 < (13 : Int)) ∧
    get_employee c10asys "E1" = some c10aemp ∧
    (monthly_records c10asys "E1" 13 2024).length = 0 ∧
    (∃ r, calculate_salary c10asys "E1" 13 2024 = CalcOutcome.ok r ∧
      r.working_days = (monthly_records c10asys "E1" 13 2024).length) :=
  ⟨Or.inr (by decide), by decide, by decide,
    c10_no_month_validation c10asys "E1" 13 2024 c10aemp (Or.inr (by decide))
      (by decide) (fun _ => ⟨100, rfl⟩)⟩
